import Mathlib

/-!
Verification of the request-authentication gate and bootstrap wiring of a
NestJS + Better Auth template application.

The repository's own checked-in source is `src/main.ts` (bootstrap: trusted
origins, CORS, global routing base with an exclusion for the auth namespace).
The auth gate, route-policy markers and session resolver live in the
authentication guard/decorator files that are documented by the spec and the
README but are not present here, so those components are modelled from the
spec (each such definition says so in its doc comment).  Machine strings are
Lean `String`s; JavaScript `String.prototype.split` with a one-character
separator is embedded as `List.splitOn` on the underlying character list,
which agrees with it on every input (empty string included).
-/

namespace NestAuth

/-- Modelled from the spec: `RoutePolicy` (spec section 3), the per-route
authentication requirement.  Missing from `src/`: the decorator/guard files
that declare it. -/
inductive RoutePolicy where
  | required
  | optional
  | publicRoute
deriving DecidableEq

/-- Modelled from the spec: the user part of a `SessionRecord` (spec
section 3). -/
structure UserRecord where
  id : String
  email : String
  role : String
deriving DecidableEq

/-- Modelled from the spec: `SessionRecord` (spec section 3), produced only
by the Session Resolver. -/
structure SessionRecord where
  sessionId : String
  userId : String
  user : UserRecord
  expiresAt : Nat
deriving DecidableEq

/-- Modelled from the spec: `RequestAuthContext` (spec section 3), the
per-request transient value attached by the Auth Gate. -/
structure RequestAuthContext where
  session : Option SessionRecord
  userId : Option String
deriving DecidableEq

/-- Modelled from the spec: the outcome of the Session Resolver call (spec
section 4.2): a session, "none", or one of the two failures. -/
inductive ResolveOutcome where
  | session (s : SessionRecord)
  | noSession
  | backendUnavailable
  | malformedSession
deriving DecidableEq

/-- Modelled from the spec: the gate's rejection taxonomy (spec section 7).
`ContextNotAvailable` belongs to the Context Injector, not to the gate's
result, and `MalformedSession` is folded into "no session" before any
rejection is chosen, so neither appears here. -/
inductive GateError where
  | unauthorized
  | authBackendUnavailable
deriving DecidableEq

/-- Modelled from the spec: the gate's terminal states `Allowed` (with the
attached context) and `Rejected` (spec section 4.3). -/
inductive GateResult where
  | allowed (ctx : RequestAuthContext)
  | rejected (e : GateError)
deriving DecidableEq

/-- Modelled from the spec: the Auth Gate state machine (spec section 4.3),
collapsed to its input/output function: route policy and resolver outcome to
terminal state.  Public skips resolution; a resolved session is attached as
`RequestAuthContext {session, session.userId}`; no session rejects on
`required` and degrades to a null context on `optional`; `malformedSession`
is treated identically to no session; `backendUnavailable` rejects with the
distinct `authBackendUnavailable` on `required` and degrades on
`optional`. -/
def authGate (policy : RoutePolicy) (outcome : ResolveOutcome) : GateResult :=
  match policy with
  | .publicRoute => .allowed ⟨none, none⟩
  | .required =>
    match outcome with
    | .session s => .allowed ⟨some s, some s.userId⟩
    | .noSession => .rejected .unauthorized
    | .malformedSession => .rejected .unauthorized
    | .backendUnavailable => .rejected .authBackendUnavailable
  | .optional =>
    match outcome with
    | .session s => .allowed ⟨some s, some s.userId⟩
    | .noSession => .allowed ⟨none, none⟩
    | .malformedSession => .allowed ⟨none, none⟩
    | .backendUnavailable => .allowed ⟨none, none⟩

/-- Modelled from the spec: whether the gate invokes the Session Resolver at
all for a given policy (spec section 4.3 step 2: `Public` skips directly to
`Allowed`, every other policy calls the resolver). -/
def callsResolver : RoutePolicy → Bool
  | .publicRoute => false
  | .required => true
  | .optional => true

/-- Modelled from the spec: the Context Injector's "current session" read
accessor, sourced from the request's `RequestAuthContext` (spec
section 4.4). -/
def currentSession (ctx : RequestAuthContext) : Option SessionRecord :=
  ctx.session

/-- Modelled from the spec: the session actually returned by the resolver,
`some` exactly on a successful resolution (spec section 4.2). -/
def returnedSession : ResolveOutcome → Option SessionRecord
  | .session s => some s
  | .noSession => none
  | .backendUnavailable => none
  | .malformedSession => none

/-- Modelled from the spec: the policy markers a route declaration may carry
(the `Public` / `Optional` decorators of the README's `AppController`, plus
the guard's implicit `required` default, spec section 4.1). -/
structure RouteMarkers where
  markedPublic : Bool
  markedOptional : Bool
  markedRequired : Bool
deriving DecidableEq

/-- Modelled from the spec: `policyOf(route)` (spec section 4.1): `Public`
wins whenever its marker is present, then `Optional`, and an unannotated
route defaults to `Required`. -/
def policyOf (m : RouteMarkers) : RoutePolicy :=
  if m.markedPublic then .publicRoute
  else if m.markedOptional then .optional
  else .required

/-- A concrete session used to instantiate proved implications. -/
def demoSession : SessionRecord :=
  ⟨"s1", "u1", ⟨"u1", "u1@example.com", "user"⟩, 0⟩

/-! ### Embedding of `src/main.ts` -/

/-- JavaScript `s.split(sep)` for a one-character separator `sep`, as used on
line 11 of `src/main.ts`: every occurrence splits, empty pieces are kept, no
trimming, and the empty string yields `[""]`. -/
def jsSplit (sep : Char) (s : String) : List String :=
  (s.data.splitOn sep).map String.mk

/-- The process environment as read by `bootstrap` in `src/main.ts`:
`process.env.TRUSTED_ORIGINS` and `process.env.PORT`, each possibly
absent. -/
structure Env where
  TRUSTED_ORIGINS : Option String
  PORT : Option String
deriving DecidableEq

/-- The runtime error thrown by `src/main.ts` line 11 when
`process.env.TRUSTED_ORIGINS` is `undefined`: the `as string` cast lets
`.split` be called on `undefined`, a `TypeError`. -/
inductive BootstrapError where
  | splitOnUndefined
deriving DecidableEq

/-- The application configuration that `bootstrap` (`src/main.ts`) has
installed by the time `app.listen` resolves: CORS origins and credentials
flag, the global routing base with its exclusion list, and the listen
target. -/
structure AppSetup where
  corsOrigins : List String
  corsCredentials : Bool
  globalBase : String
  excludedFromBase : List String
  listenTarget : String
deriving DecidableEq

/-- The `bootstrap` function of `src/main.ts`, with IO reduced to the
configuration it installs.  Line 11 computes
`(process.env.TRUSTED_ORIGINS as string).split(',')`, so an absent variable
throws before `enableCors`, `setGlobalPrefix` and `listen` ever run; with
the variable present, CORS gets exactly the split list with
`credentials: true`, the global base is `api` excluding the auth namespace
pattern, and the app listens on `process.env.PORT ?? 3000`. -/
def bootstrap (env : Env) : Except BootstrapError AppSetup :=
  match env.TRUSTED_ORIGINS with
  | none => .error .splitOnUndefined
  | some raw =>
    let trustedOrigins := jsSplit ',' raw
    .ok { corsOrigins := trustedOrigins
          corsCredentials := true
          globalBase := "api"
          excludedFromBase := ["/api/auth/\x7b*path\x7d"]
          listenTarget := env.PORT.getD "3000" }

/-- Splits a route or pattern path into its slash-separated segments,
dropping empty pieces (so leading, trailing and doubled slashes are
ignored, matching the router's non-strict path handling). -/
def splitSegments (p : String) : List String :=
  ((p.data.splitOn '/').map String.mk).filter (fun s => s ≠ "")

/-- Recognises an Express 5 optional wildcard segment such as `{*path}`
(`src/main.ts` line 18 uses exactly one, at the end of its pattern). -/
def isWildcardSeg (s : String) : Bool :=
  match s.data with
  | '\x7b' :: '*' :: _ => true
  | _ => false

/-- Segment-wise match of a route pattern against a concrete path: literal
segments must agree one by one and a trailing optional wildcard segment
matches any remainder, including the empty one. -/
def segsMatch : List String → List String → Bool
  | [], [] => true
  | [], _ :: _ => false
  | pat :: pats, segs =>
    if isWildcardSeg pat then true
    else
      match segs with
      | [] => false
      | s :: rest => pat == s && segsMatch pats rest

/-- A pattern matches a path when their segment lists match. -/
def matchesRoutePattern (pat p : String) : Bool :=
  segsMatch (splitSegments pat) (splitSegments p)

/-- The exclusion list passed to `setGlobalPrefix` in `src/main.ts`
line 18. -/
def excludedRoutePatterns : List String :=
  ["/api/auth/\x7b*path\x7d"]

/-- Whether a path falls in the auth namespace excluded from the global
routing base (`src/main.ts` line 18). -/
def isAuthExcluded (p : String) : Bool :=
  excludedRoutePatterns.any (fun pat => matchesRoutePattern pat p)

/-- The path at which a registered route is actually served after
`app.setGlobalPrefix('api', { exclude: ['/api/auth/...'] })`: excluded
paths stay as they are, every other route moves under `/api`. -/
def effectiveRoutePath (r : String) : String :=
  if isAuthExcluded r then r else "/api" ++ r

/-! ### Helper lemmas -/

theorem wild_api : isWildcardSeg "api" = false := by decide

theorem wild_auth : isWildcardSeg "auth" = false := by decide

theorem wild_star : isWildcardSeg "\x7b*path\x7d" = true := by decide

theorem splitSegments_authPat :
    splitSegments "/api/auth/\x7b*path\x7d" = ["api", "auth", "\x7b*path\x7d"] := by
  decide

theorem segsMatch_authPat (l : List String) :
    segsMatch ["api", "auth", "\x7b*path\x7d"] l = true ↔
      ∃ rest, l = "api" :: "auth" :: rest := by
  cases l with
  | nil => simp [segsMatch, wild_api]
  | cons s1 t1 =>
    cases t1 with
    | nil => simp [segsMatch, wild_api, wild_auth]
    | cons s2 t2 =>
      simp [segsMatch, wild_api, wild_auth, wild_star]
      exact ⟨fun h => ⟨h.1.symm, h.2.symm⟩, fun h => ⟨h.1.symm, h.2.symm⟩⟩

theorem isAuthExcluded_iff (p : String) :
    isAuthExcluded p = true ↔ ∃ rest, splitSegments p = "api" :: "auth" :: rest := by
  unfold isAuthExcluded excludedRoutePatterns
  simp only [List.any_cons, List.any_nil, Bool.or_false, matchesRoutePattern,
    splitSegments_authPat]
  exact segsMatch_authPat (splitSegments p)

/-! ### Claims -/

/-- C1: on a route whose policy is `Required`, every request the Auth Gate
allows through to the handler carries a `RequestAuthContext` with a non-null
session. -/
theorem required_allowed_has_session (o : ResolveOutcome) (ctx : RequestAuthContext)
    (h : authGate .required o = .allowed ctx) : ∃ s, ctx.session = some s := by
  cases o with
  | session s =>
    injection h with h'
    exact ⟨s, by rw [← h']⟩
  | noSession => simp [authGate] at h
  | backendUnavailable => simp [authGate] at h
  | malformedSession => simp [authGate] at h

theorem required_allowed_has_session_witness :
    ∃ s, (RequestAuthContext.mk (some demoSession) (some "u1")).session = some s :=
  required_allowed_has_session (.session demoSession) ⟨some demoSession, some "u1"⟩ rfl

/-- C2: on a `Required` route with no resolved session (no valid session
cookie), the gate's result is `Unauthorized` and in particular the request is
never allowed, so the handler body never executes. -/
theorem required_no_session_rejected :
    authGate .required .noSession = .rejected .unauthorized ∧
      ∀ ctx, authGate .required .noSession ≠ .allowed ctx :=
  ⟨rfl, fun ctx h => by simp [authGate] at h⟩

/-- C3: when the resolver fails with `BackendUnavailable`, a `Required` route
rejects with `AuthBackendUnavailable`, which is distinct from `Unauthorized`
and from the "no session" outcome, while an `Optional` route is allowed with
a null context. -/
theorem backend_unavailable_behaviour :
    authGate .required .backendUnavailable = .rejected .authBackendUnavailable ∧
      GateError.authBackendUnavailable ≠ GateError.unauthorized ∧
      authGate .required .backendUnavailable ≠ authGate .required .noSession ∧
      authGate .optional .backendUnavailable = .allowed ⟨none, none⟩ := by
  refine ⟨rfl, by decide, by decide, rfl⟩

/-- C4: on a `Public` route the Session Resolver is never invoked and the
request is always allowed with a null context, whatever the cookie state
would have resolved to. -/
theorem public_route_skips_resolver :
    callsResolver .publicRoute = false ∧
      ∀ o : ResolveOutcome, authGate .publicRoute o = .allowed ⟨none, none⟩ :=
  ⟨rfl, fun _ => rfl⟩

/-- C5: on an `Optional` route the gate always allows the request, and the
"current session" accessor of the attached context is null exactly when the
resolver returned no session. -/
theorem optional_route_always_allows (o : ResolveOutcome) :
    ∃ ctx, authGate .optional o = .allowed ctx ∧
      currentSession ctx = returnedSession o ∧
      (currentSession ctx = none ↔ returnedSession o = none) := by
  cases o with
  | session s => exact ⟨⟨some s, some s.userId⟩, rfl, rfl, Iff.rfl⟩
  | noSession => exact ⟨⟨none, none⟩, rfl, rfl, Iff.rfl⟩
  | backendUnavailable => exact ⟨⟨none, none⟩, rfl, rfl, Iff.rfl⟩
  | malformedSession => exact ⟨⟨none, none⟩, rfl, rfl, Iff.rfl⟩

/-- C6: `policyOf` returns `Required` for an unannotated route, and whenever
the `Public` marker is present — in particular together with the `Required`
marker — it returns `Public`. -/
theorem policyOf_default_and_public_wins :
    policyOf ⟨false, false, false⟩ = .required ∧
      ∀ opt req : Bool, policyOf ⟨true, opt, req⟩ = .publicRoute :=
  ⟨rfl, fun _ _ => rfl⟩

/-- C7: a `MalformedSession` resolver outcome is treated by the gate exactly
like "no session" under every policy — `Unauthorized` on `Required`, allowed
with null context on `Optional` — and the gate's error taxonomy has no
distinct malformed-payload result that could be propagated. -/
theorem malformed_treated_as_no_session :
    (∀ p : RoutePolicy, authGate p .malformedSession = authGate p .noSession) ∧
      authGate .required .malformedSession = .rejected .unauthorized ∧
      authGate .optional .malformedSession = .allowed ⟨none, none⟩ ∧
      ∀ e : GateError, e = .unauthorized ∨ e = .authBackendUnavailable := by
  refine ⟨fun p => ?_, rfl, rfl, fun e => ?_⟩
  · cases p <;> rfl
  · cases e
    · exact Or.inl rfl
    · exact Or.inr rfl

/-- C8: the global routing base is applied to every route except the auth
namespace: a path is excluded exactly when its segments start with
`api, auth`, excluded paths are served unchanged (the provider-native
endpoints among them), and every other route is served only under
`/api`. -/
theorem auth_namespace_excluded_from_base :
    (∀ p, isAuthExcluded p = true ↔ ∃ rest, splitSegments p = "api" :: "auth" :: rest) ∧
      (∀ r, isAuthExcluded r = true → effectiveRoutePath r = r) ∧
      (∀ r, isAuthExcluded r = false → effectiveRoutePath r = "/api" ++ r) ∧
      effectiveRoutePath "/api/auth/sign-in/email" = "/api/auth/sign-in/email" ∧
      effectiveRoutePath "/api/auth/callback/github" = "/api/auth/callback/github" ∧
      effectiveRoutePath "/api/auth/get-session" = "/api/auth/get-session" ∧
      effectiveRoutePath "/cats" = "/api/cats" := by
  refine ⟨isAuthExcluded_iff, ?_, ?_, by decide, by decide, by decide, by decide⟩
  · intro r h
    simp [effectiveRoutePath, h]
  · intro r h
    simp [effectiveRoutePath, h]

theorem auth_namespace_excluded_from_base_witness :
    effectiveRoutePath "/cats" = "/api" ++ "/cats" :=
  auth_namespace_excluded_from_base.2.2.1 "/cats" (by decide)

/-- C9: if `TRUSTED_ORIGINS` is absent from the environment, `bootstrap`
throws (the `as string` cast forces `.split` onto an undefined value) and no
application setup — CORS configuration or a listening server — is ever
produced. -/
theorem missing_trusted_origins_throws (env : Env) (h : env.TRUSTED_ORIGINS = none) :
    bootstrap env = .error .splitOnUndefined ∧ ∀ cfg, bootstrap env ≠ .ok cfg := by
  have hb : bootstrap env = .error .splitOnUndefined := by
    unfold bootstrap
    rw [h]
  exact ⟨hb, fun cfg hc => by rw [hb] at hc; exact Except.noConfusion hc⟩

theorem missing_trusted_origins_throws_witness :
    bootstrap ⟨none, none⟩ = .error .splitOnUndefined ∧
      ∀ cfg, bootstrap ⟨none, none⟩ ≠ .ok cfg :=
  missing_trusted_origins_throws ⟨none, none⟩ rfl

/-- C10: the CORS origin list is exactly the comma-split of the raw
`TRUSTED_ORIGINS` value, in order and verbatim — joining the entries back
with commas recovers the raw value — with no trimming (a space after a comma
stays in the entry, so the spaceless origin is not in the list), no removal
of empty entries, and no deduplication. -/
theorem trusted_origins_split_verbatim :
    (∀ env raw, env.TRUSTED_ORIGINS = some raw →
        ∃ cfg, bootstrap env = .ok cfg ∧ cfg.corsOrigins = jsSplit ',' raw ∧
          List.intercalate [','] (cfg.corsOrigins.map String.data) = raw.data) ∧
      jsSplit ',' "http://a.com, http://b.com" = ["http://a.com", " http://b.com"] ∧
      "http://b.com" ∉ jsSplit ',' "http://a.com, http://b.com" ∧
      jsSplit ',' "a,,b" = ["a", "", "b"] ∧
      jsSplit ',' "a,a" = ["a", "a"] := by
  refine ⟨?_, by decide, by decide, by decide, by decide⟩
  intro env raw h
  have hb : bootstrap env =
      .ok { corsOrigins := jsSplit ',' raw
            corsCredentials := true
            globalBase := "api"
            excludedFromBase := ["/api/auth/\x7b*path\x7d"]
            listenTarget := env.PORT.getD "3000" } := by
    unfold bootstrap
    rw [h]
  refine ⟨_, hb, rfl, ?_⟩
  simp only [jsSplit, List.map_map]
  rw [show (String.data ∘ String.mk) = id from rfl, List.map_id]
  exact List.intercalate_splitOn raw.data ','

theorem trusted_origins_split_verbatim_witness :
    ∃ cfg, bootstrap ⟨some "a, b", none⟩ = .ok cfg ∧
      cfg.corsOrigins = jsSplit ',' "a, b" ∧
      List.intercalate [','] (cfg.corsOrigins.map String.data) = ("a, b" : String).data :=
  trusted_origins_split_verbatim.1 ⟨some "a, b", none⟩ "a, b" rfl

end NestAuth
